import Mathlib

/-!
Shallow embedding of the Lichuan A4 servo-drive telemetry engine
(repository havardAasen/lichuan_a4) and proofs about its polling,
decoding and alarm-reporting behaviour.

The authoritative engine lives in src/src/lichuan_a4.cpp together with the
transport wrapper src/src/modbus.cpp; the repository also keeps a legacy
flat-layout variant in src/lichuan_a4.cpp whose `read_data` performs one
13-register block read.  Both are embedded below.

Modelling conventions:
* a 16-bit register word is a `Nat` (the transport hands back `uint16_t`);
* one low-level transport attempt is modelled by its outcome, an
  `Option (List Nat)`: `some ws` when the library reported `ws.length`
  registers read, `none` on an I/O error;
* HAL float output slots hold exact values in this code (integers, or
  sixteen-bit words divided by 10), so they are modelled by `Int` and `ℚ`;
* the `hal_u32_t` failure counter is a `Nat` reduced modulo `2 ^ 32`;
* printing to stderr is modelled by returning the would-be report as an
  `Option (Int × String)` value.
-/

set_option autoImplicit false

namespace LichuanA4

/-- A transport response for one attempt: what `modbus_read_registers`
produced, as the list of register words actually delivered, or `none` for
an I/O error. -/
abbrev Resp := Option (List Nat)

/-- Embedding of `Modbus::read_registers` (src/src/modbus.cpp, lines 53-71):
rejects out-of-range counts, returns the received data exactly when the
returned register count equals the requested count, and otherwise returns an
empty container.  `MODBUS_MAX_READ_REGISTERS` is 125. -/
def read_registers (resp : Resp) (count : Nat) : List Nat :=
  if 125 < count ∨ count < 1 then []
  else
    match resp with
    | some ws => if ws.length = count then ws else []
    | none => []

/-- Retry ceiling `Lichuan_a4::modbus_retries` (src/src/lichuan_a4.h). -/
def modbus_retries : Nat := 5

/-- Register address constants from src/src/lichuan_a4.h. -/
def current_error_code_reg : Nat := 457

/-- Register count of the single error-code read. -/
def single_register_count : Nat := 1

/-- Start register of the digital I/O block. -/
def digital_io_start_reg : Nat := 466

/-- Register count of the digital I/O block. -/
def digital_io_reg_count : Nat := 2

/-- Start register of the speed block. -/
def speed_start_reg : Nat := 448

/-- Register count of the speed block. -/
def speed_reg_count : Nat := 3

/-- Start register of the torque block. -/
def torque_start_reg : Nat := 451

/-- Register count of the torque block. -/
def torque_reg_count : Nat := 3

/-- Embedding of `static_cast<int16_t>` applied to a 16-bit register word:
two's-complement reinterpretation. -/
def toInt16 (w : Nat) : Int :=
  if w % 65536 < 32768 then ((w % 65536 : Nat) : Int)
  else ((w % 65536 : Nat) : Int) - 65536

/-- The HAL output slots and parameters written by the engine
(class `Hal_data`, src/src/lichuan_a4.h). -/
structure HalData where
  commanded_speed : Int
  feedback_speed : Int
  deviation_speed : Int
  commanded_torque : ℚ
  feedback_torque : ℚ
  deviation_torque : ℚ
  dc_bus_volt : ℚ
  torque_load : ℚ
  res_braking : ℚ
  torque_overload : ℚ
  error_code : Int
  digital_in0 : Bool
  digital_in1 : Bool
  digital_in2 : Bool
  digital_in3 : Bool
  digital_in4 : Bool
  digital_in5 : Bool
  digital_in6 : Bool
  digital_in7 : Bool
  digital_out0 : Bool
  digital_out1 : Bool
  digital_out2 : Bool
  digital_out3 : Bool
  digital_out4 : Bool
  digital_out5 : Bool
  modbus_errors : Nat
  deriving Repr, DecidableEq

/-- Embedding of `Hal_data::initialize_data`: every slot zeroed / false,
error counter zero. -/
def HalData.initial : HalData :=
  { commanded_speed := 0, feedback_speed := 0, deviation_speed := 0
    commanded_torque := 0, feedback_torque := 0, deviation_torque := 0
    dc_bus_volt := 0, torque_load := 0, res_braking := 0, torque_overload := 0
    error_code := 0
    digital_in0 := false, digital_in1 := false, digital_in2 := false
    digital_in3 := false, digital_in4 := false, digital_in5 := false
    digital_in6 := false, digital_in7 := false
    digital_out0 := false, digital_out1 := false, digital_out2 := false
    digital_out3 := false, digital_out4 := false, digital_out5 := false
    modbus_errors := 0 }

/-- The statement `hal->modbus_errors++` on the `hal_u32_t` counter:
increment modulo `2 ^ 32`. -/
def bump (st : HalData) : HalData :=
  { st with modbus_errors := (st.modbus_errors + 1) % 4294967296 }

/-- Iterated `bump`, used to account for several failed attempts. -/
def bumpN : Nat → HalData → HalData
  | 0, st => st
  | n + 1, st => bumpN n (bump st)

/-- Decode step of `read_speed_data` on a full-count speed block:
the three words are reinterpreted as signed 16-bit values. -/
def speed_apply (data : List Nat) (st : HalData) : HalData :=
  match data with
  | [a, b, c] =>
      { st with commanded_speed := toInt16 a
                feedback_speed := toInt16 b
                deviation_speed := toInt16 c }
  | _ => st

/-- Decode step of `read_torque_data` on a full-count torque block:
each word divided by 10.0. -/
def torque_apply (data : List Nat) (st : HalData) : HalData :=
  match data with
  | [a, b, c] =>
      { st with commanded_torque := (a : ℚ) / 10
                feedback_torque := (b : ℚ) / 10
                deviation_torque := (c : ℚ) / 10 }
  | _ => st

/-- Decode step of `read_digital_IO` on a full-count block: bit `i` of word 0
is input line `i`, bit `i` of word 1 is output line `i`. -/
def io_apply (data : List Nat) (st : HalData) : HalData :=
  match data with
  | [a, b] =>
      { st with digital_in0 := a.testBit 0
                digital_in1 := a.testBit 1
                digital_in2 := a.testBit 2
                digital_in3 := a.testBit 3
                digital_in4 := a.testBit 4
                digital_in5 := a.testBit 5
                digital_in6 := a.testBit 6
                digital_in7 := a.testBit 7
                digital_out0 := b.testBit 0
                digital_out1 := b.testBit 1
                digital_out2 := b.testBit 2
                digital_out3 := b.testBit 3
                digital_out4 := b.testBit 4
                digital_out5 := b.testBit 5 }
  | _ => st

/-- Decode step of `read_error_code` on a full-count read: the word is
stored into the `hal_s32_t` error-code slot. -/
def error_apply (data : List Nat) (st : HalData) : HalData :=
  match data with
  | [a] => { st with error_code := (a : Int) }
  | _ => st

/-- The common retry loop shape of `read_speed_data`, `read_torque_data`,
`read_digital_IO` and `read_error_code`: up to `fuel` attempts starting at
attempt index `i`; a full-count read applies the decode and stops, a failed
attempt increments the error counter and retries.  Also returns the number
of transport attempts actually made. -/
def retry_loop (env : Nat → Resp) (count : Nat)
    (apply : List Nat → HalData → HalData) :
    Nat → Nat → HalData → HalData × Nat
  | _, 0, st => (st, 0)
  | i, fuel + 1, st =>
      let data := read_registers (env i) count
      if data.length = count then (apply data st, 1)
      else
        let r := retry_loop env count apply (i + 1) fuel (bump st)
        (r.1, r.2 + 1)

/-- Index and data of the first attempt (within `fuel` attempts starting at
index `i`) whose read returns the full requested count. -/
def firstSucc (env : Nat → Resp) (count : Nat) :
    Nat → Nat → Option (Nat × List Nat)
  | _, 0 => none
  | i, fuel + 1 =>
      let data := read_registers (env i) count
      if data.length = count then some (i, data)
      else firstSucc env count (i + 1) fuel

/-- Embedding of `Lichuan_a4::read_speed_data`. -/
def read_speed_data (env : Nat → Resp) (st : HalData) : HalData :=
  (retry_loop env speed_reg_count speed_apply 0 modbus_retries st).1

/-- Embedding of `Lichuan_a4::read_torque_data`. -/
def read_torque_data (env : Nat → Resp) (st : HalData) : HalData :=
  (retry_loop env torque_reg_count torque_apply 0 modbus_retries st).1

/-- Embedding of `Lichuan_a4::read_digital_IO`. -/
def read_digital_io (env : Nat → Resp) (st : HalData) : HalData :=
  (retry_loop env digital_io_reg_count io_apply 0 modbus_retries st).1

/-- Embedding of `Lichuan_a4::read_error_code`. -/
def read_error_code (env : Nat → Resp) (st : HalData) : HalData :=
  (retry_loop env single_register_count error_apply 0 modbus_retries st).1

/-- Embedding of `Lichuan_a4::get_error_message`, on the underlying integer
values of `enum class Error_code`.  Code 0 (`no_error`) maps to the empty
message, unknown codes to a generic message. -/
def get_error_message (code : Int) : String :=
  if code = 1 then "system error"
  else if code = 2 then "DI configuration error"
  else if code = 3 then "communication error"
  else if code = 4 then "control power is off"
  else if code = 5 then "FPGA internal error"
  else if code = 6 then "zeroing timeout"
  else if code = 12 then "overvoltage"
  else if code = 13 then "undervoltage"
  else if code = 14 then "overcurrent and grounding errors"
  else if code = 15 then "over heating"
  else if code = 16 then "excessive load"
  else if code = 18 then "regenerative discharge resistance overload"
  else if code = 21 then "encoder error"
  else if code = 24 then "excessive position deviation"
  else if code = 26 then "overspeed"
  else if code = 27 then "command pulse division frequency"
  else if code = 29 then "deviation counter overflow"
  else if code = 36 then "EEPROM parameter error"
  else if code = 38 then "stroke limit input signal"
  else if code = 39 then "analog command overvoltage"
  else if code = 0 then ""
  else "unknown error code"

/-- Embedding of `Lichuan_a4::print_error_message`: given the HAL state
(whose `error_code` slot is read back) and the remembered member
`error_code`, returns the new remembered code and the report that would be
printed to stderr, if any. -/
def print_error_message (st : HalData) (member : Int) :
    Int × Option (Int × String) :=
  let current := st.error_code
  if current = member then (member, none)
  else
    let message := get_error_message current
    if message = "" then (current, none)
    else (current, some (current, message))

/-- The engine state of one `Lichuan_a4` object: the HAL data plus the
private member `error_code` of the alarm state machine. -/
structure Engine where
  hal : HalData
  error_code : Int
  deriving Repr, DecidableEq

/-- Engine state right after construction: zeroed HAL data,
remembered code `no_error`. -/
def Engine.initial : Engine := { hal := HalData.initial, error_code := 0 }

/-- Embedding of `Lichuan_a4::get_current_error`. -/
def get_current_error (e : Engine) : Int := e.error_code

/-- The transport responses one polling cycle can observe: one attempt
oracle per telemetry group. -/
structure CycleEnv where
  speed : Nat → Resp
  torque : Nat → Resp
  io : Nat → Resp
  err : Nat → Resp

/-- Embedding of `Lichuan_a4::read_data` followed by its call to
`update_internal_state`: one full polling cycle.  Returns the new engine
state and the alarm report emitted during the cycle, if any. -/
def read_data (env : CycleEnv) (e : Engine) : Engine × Option (Int × String) :=
  let h1 := read_speed_data env.speed e.hal
  let h2 := read_torque_data env.torque h1
  let h3 := read_digital_io env.io h2
  if h3.digital_out1 then
    let h4 := read_error_code env.err h3
    let r := print_error_message h4 e.error_code
    ({ hal := h4, error_code := r.1 }, r.2)
  else
    ({ hal := h3, error_code := 0 }, none)

/-- A run of consecutive polling cycles; returns the final engine state and
the per-cycle report stream. -/
def run_cycles (envs : List CycleEnv) (e : Engine) :
    Engine × List (Option (Int × String)) :=
  match envs with
  | [] => (e, [])
  | env :: rest =>
      let r := read_data env e
      let rr := run_cycles rest r.1
      (rr.1, r.2 :: rr.2)

/-- The HAL slots of the legacy flat-layout variant (struct `Hal_data` in
src/lichuan_a4.cpp): seven float slots and a signed error counter. -/
structure LegacyHal where
  commanded_speed : Nat
  feedback_speed : Nat
  deviation_speed : Nat
  dc_bus_volt : Nat
  torque_load : Nat
  res_braking : Nat
  torque_overload : Nat
  modbus_errors : Int
  deriving Repr, DecidableEq

/-- Register count `num_register_r` of the legacy 13-register superblock. -/
def legacy_reg_count : Nat := 13

/-- Embedding of the legacy `read_data` (src/lichuan_a4.cpp, lines 63-88):
up to `fuel` attempts of one 13-register block read starting at
`start_register_r`; a full-count read decodes words 0-2 and 9-12 and returns
0, each failure increments the error counter; exhaustion returns -1. -/
def legacy_read_data (env : Nat → Resp) :
    Nat → Nat → LegacyHal → LegacyHal × Int
  | _, 0, h => (h, -1)
  | i, fuel + 1, h =>
      match env i with
      | some ws =>
          if ws.length = legacy_reg_count then
            ({ h with commanded_speed := ws.getD 0 0
                      feedback_speed := ws.getD 1 0
                      deviation_speed := ws.getD 2 0
                      dc_bus_volt := ws.getD 9 0
                      torque_load := ws.getD 10 0
                      res_braking := ws.getD 11 0
                      torque_overload := ws.getD 12 0 }, 0)
          else
            legacy_read_data env (i + 1) fuel
              { h with modbus_errors := h.modbus_errors + 1 }
      | none =>
          legacy_read_data env (i + 1) fuel
            { h with modbus_errors := h.modbus_errors + 1 }

/-- The three speed output slots of one HAL state, bundled. -/
def speedFields (st : HalData) : Int × Int × Int :=
  (st.commanded_speed, st.feedback_speed, st.deviation_speed)

/-- The three torque output slots of one HAL state, bundled. -/
def torqueFields (st : HalData) : ℚ × ℚ × ℚ :=
  (st.commanded_torque, st.feedback_torque, st.deviation_torque)

/-- The fourteen digital I/O output slots of one HAL state, bundled:
inputs 0-7 then outputs 0-5. -/
def ioFields (st : HalData) : List Bool :=
  [st.digital_in0, st.digital_in1, st.digital_in2, st.digital_in3,
   st.digital_in4, st.digital_in5, st.digital_in6, st.digital_in7,
   st.digital_out0, st.digital_out1, st.digital_out2, st.digital_out3,
   st.digital_out4, st.digital_out5]

/-- The digital I/O decode of a pair of raw words, as the same bundle shape
as `ioFields`. -/
def ioBits (a b : Nat) : List Bool :=
  [a.testBit 0, a.testBit 1, a.testBit 2, a.testBit 3,
   a.testBit 4, a.testBit 5, a.testBit 6, a.testBit 7,
   b.testBit 0, b.testBit 1, b.testBit 2, b.testBit 3,
   b.testBit 4, b.testBit 5]

/-- The four voltage/load/braking/overload output slots of one HAL state,
bundled. -/
def voltFields (st : HalData) : ℚ × ℚ × ℚ × ℚ :=
  (st.dc_bus_volt, st.torque_load, st.res_braking, st.torque_overload)

/-- A polling-cycle environment in which the digital I/O read succeeds with
the active-alarm bit (bit 1 of word 1) set, and the error-code read succeeds
with code `c`. -/
def AlarmCycle (env : CycleEnv) (c : Nat) : Prop :=
  (∃ k a b, firstSucc env.io digital_io_reg_count 0 modbus_retries = some (k, [a, b]) ∧
    b.testBit 1 = true) ∧
  (∃ k, firstSucc env.err single_register_count 0 modbus_retries = some (k, [c]))

/-- The cycle observes the alarm bit as false: after the three block reads
of `read_data` from engine state `e`, the `digital_out1` slot is false. -/
def ClearObserved (env : CycleEnv) (e : Engine) : Prop :=
  (read_digital_io env.io
    (read_torque_data env.torque (read_speed_data env.speed e.hal))).digital_out1 = false

/-- Index and data of the first attempt of the legacy 13-register read
(within `fuel` attempts starting at `i`) that returns the full count. -/
def legacyFirst (env : Nat → Resp) : Nat → Nat → Option (Nat × List Nat)
  | _, 0 => none
  | i, fuel + 1 =>
      match env i with
      | some ws =>
          if ws.length = legacy_reg_count then some (i, ws)
          else legacyFirst env (i + 1) fuel
      | none => legacyFirst env (i + 1) fuel

/-! Concrete inputs used to exercise the theorems below. -/

/-- A speed-group attempt oracle whose every attempt returns the words
`[0xFFFF, 100, 2]`. -/
def envSpeedNeg : Nat → Resp := fun _ => some [65535, 100, 2]

/-- A torque-group attempt oracle whose every attempt returns
`[55, 50, 5]`. -/
def envTorque55 : Nat → Resp := fun _ => some [55, 50, 5]

/-- A digital-I/O attempt oracle whose every attempt returns `[5, 2]`
(input word `0b101`, output word `0b10`). -/
def envIo5 : Nat → Resp := fun _ => some [5, 2]

/-- An attempt oracle that fails on attempt 0 and succeeds with a
3-register block from attempt 1 on. -/
def envSecondTry : Nat → Resp := fun i => if i = 0 then none else some [7, 8, 9]

/-- An attempt oracle whose every attempt fails with an I/O error. -/
def envFail : Nat → Resp := fun _ => none

/-- A cycle in which the I/O read reports the alarm bit set and the
error-code read returns code 12 (overvoltage); speed and torque reads
fail. -/
def envAlarm12 : CycleEnv :=
  { speed := envFail, torque := envFail, io := fun _ => some [0, 2],
    err := fun _ => some [12] }

/-- A cycle in which the I/O read reports the alarm bit set and the
error-code read returns code 7 (a gap in the drive enumeration). -/
def envAlarm7 : CycleEnv :=
  { speed := envFail, torque := envFail, io := fun _ => some [0, 2],
    err := fun _ => some [7] }

/-- A cycle in which the I/O read reports the alarm bit clear. -/
def envClear : CycleEnv :=
  { speed := envFail, torque := envFail, io := fun _ => some [0, 0],
    err := envFail }

/-- A cycle in which the I/O read reports the alarm bit set but every
attempt of the error-code read fails. -/
def envErrFail : CycleEnv :=
  { speed := envFail, torque := envFail, io := fun _ => some [0, 2],
    err := envFail }

/-- A cycle in which every block read succeeds, all data words being 7
except a clear alarm bit. -/
def envAll7 : CycleEnv :=
  { speed := fun _ => some [7, 7, 7], torque := fun _ => some [7, 7, 7],
    io := fun _ => some [7, 0], err := fun _ => some [7] }

/-- An engine state whose voltage-group slots carry sentinel values
42, 43, 44, 45. -/
def engineVoltSentinel : Engine :=
  { hal := { HalData.initial with
              dc_bus_volt := 42
              torque_load := 43
              res_braking := 44
              torque_overload := 45 }
    error_code := 0 }

/-- An engine state in Clear alarm state whose published error-code slot
still carries the stale value 7. -/
def engineStale7 : Engine :=
  { hal := { HalData.initial with error_code := 7 }, error_code := 7 }

/-- An engine state that has already reported code 12 in a still-active
episode. -/
def engineReported12 : Engine :=
  { hal := { HalData.initial with error_code := 12 }, error_code := 12 }

/-- All-zero legacy HAL state. -/
def LegacyHal.initial : LegacyHal :=
  { commanded_speed := 0, feedback_speed := 0, deviation_speed := 0
    dc_bus_volt := 0, torque_load := 0, res_braking := 0, torque_overload := 0
    modbus_errors := 0 }

/-- A legacy attempt oracle whose every attempt returns the full
13-register superblock with words 1 to 13. -/
def envLegacy13 : Nat → Resp :=
  fun _ => some [1, 2, 3, 4, 5, 6, 7, 8, 9, 10, 11, 12, 13]

/-! ### Frame lemmas for the single-attempt state transforms -/

theorem proj_bumpN {α : Type} (f : HalData → α)
    (hf : ∀ st, f (bump st) = f st) :
    ∀ (n : Nat) (st : HalData), f (bumpN n st) = f st
  | 0, _ => rfl
  | n + 1, st => (proj_bumpN f hf n (bump st)).trans (hf st)

theorem speedFields_bumpN (n : Nat) (st : HalData) :
    speedFields (bumpN n st) = speedFields st :=
  proj_bumpN speedFields (fun _ => rfl) n st

theorem torqueFields_bumpN (n : Nat) (st : HalData) :
    torqueFields (bumpN n st) = torqueFields st :=
  proj_bumpN torqueFields (fun _ => rfl) n st

theorem ioFields_bumpN (n : Nat) (st : HalData) :
    ioFields (bumpN n st) = ioFields st :=
  proj_bumpN ioFields (fun _ => rfl) n st

theorem voltFields_bumpN (n : Nat) (st : HalData) :
    voltFields (bumpN n st) = voltFields st :=
  proj_bumpN voltFields (fun _ => rfl) n st

theorem error_code_bumpN (n : Nat) (st : HalData) :
    (bumpN n st).error_code = st.error_code :=
  proj_bumpN (fun st => st.error_code) (fun _ => rfl) n st

theorem speedFields_torque_apply (ws : List Nat) (st : HalData) :
    speedFields (torque_apply ws st) = speedFields st := by
  rcases ws with _ | ⟨a, _ | ⟨b, _ | ⟨c, _ | ⟨d, tl⟩⟩⟩⟩ <;> rfl

theorem ioFields_torque_apply (ws : List Nat) (st : HalData) :
    ioFields (torque_apply ws st) = ioFields st := by
  rcases ws with _ | ⟨a, _ | ⟨b, _ | ⟨c, _ | ⟨d, tl⟩⟩⟩⟩ <;> rfl

theorem voltFields_torque_apply (ws : List Nat) (st : HalData) :
    voltFields (torque_apply ws st) = voltFields st := by
  rcases ws with _ | ⟨a, _ | ⟨b, _ | ⟨c, _ | ⟨d, tl⟩⟩⟩⟩ <;> rfl

theorem error_code_torque_apply (ws : List Nat) (st : HalData) :
    (torque_apply ws st).error_code = st.error_code := by
  rcases ws with _ | ⟨a, _ | ⟨b, _ | ⟨c, _ | ⟨d, tl⟩⟩⟩⟩ <;> rfl

theorem torqueFields_speed_apply (ws : List Nat) (st : HalData) :
    torqueFields (speed_apply ws st) = torqueFields st := by
  rcases ws with _ | ⟨a, _ | ⟨b, _ | ⟨c, _ | ⟨d, tl⟩⟩⟩⟩ <;> rfl

theorem ioFields_speed_apply (ws : List Nat) (st : HalData) :
    ioFields (speed_apply ws st) = ioFields st := by
  rcases ws with _ | ⟨a, _ | ⟨b, _ | ⟨c, _ | ⟨d, tl⟩⟩⟩⟩ <;> rfl

theorem voltFields_speed_apply (ws : List Nat) (st : HalData) :
    voltFields (speed_apply ws st) = voltFields st := by
  rcases ws with _ | ⟨a, _ | ⟨b, _ | ⟨c, _ | ⟨d, tl⟩⟩⟩⟩ <;> rfl

theorem error_code_speed_apply (ws : List Nat) (st : HalData) :
    (speed_apply ws st).error_code = st.error_code := by
  rcases ws with _ | ⟨a, _ | ⟨b, _ | ⟨c, _ | ⟨d, tl⟩⟩⟩⟩ <;> rfl

theorem speedFields_io_apply (ws : List Nat) (st : HalData) :
    speedFields (io_apply ws st) = speedFields st := by
  rcases ws with _ | ⟨a, _ | ⟨b, _ | ⟨c, tl⟩⟩⟩ <;> rfl

theorem torqueFields_io_apply (ws : List Nat) (st : HalData) :
    torqueFields (io_apply ws st) = torqueFields st := by
  rcases ws with _ | ⟨a, _ | ⟨b, _ | ⟨c, tl⟩⟩⟩ <;> rfl

theorem voltFields_io_apply (ws : List Nat) (st : HalData) :
    voltFields (io_apply ws st) = voltFields st := by
  rcases ws with _ | ⟨a, _ | ⟨b, _ | ⟨c, tl⟩⟩⟩ <;> rfl

theorem error_code_io_apply (ws : List Nat) (st : HalData) :
    (io_apply ws st).error_code = st.error_code := by
  rcases ws with _ | ⟨a, _ | ⟨b, _ | ⟨c, tl⟩⟩⟩ <;> rfl

theorem speedFields_error_apply (ws : List Nat) (st : HalData) :
    speedFields (error_apply ws st) = speedFields st := by
  rcases ws with _ | ⟨a, _ | ⟨b, tl⟩⟩ <;> rfl

theorem torqueFields_error_apply (ws : List Nat) (st : HalData) :
    torqueFields (error_apply ws st) = torqueFields st := by
  rcases ws with _ | ⟨a, _ | ⟨b, tl⟩⟩ <;> rfl

theorem ioFields_error_apply (ws : List Nat) (st : HalData) :
    ioFields (error_apply ws st) = ioFields st := by
  rcases ws with _ | ⟨a, _ | ⟨b, tl⟩⟩ <;> rfl

theorem voltFields_error_apply (ws : List Nat) (st : HalData) :
    voltFields (error_apply ws st) = voltFields st := by
  rcases ws with _ | ⟨a, _ | ⟨b, tl⟩⟩ <;> rfl

/-! ### The retry loop realizes first-success semantics -/

theorem firstSucc_ge {env : Nat → Resp} {count i fuel k : Nat}
    {ws : List Nat} (h : firstSucc env count i fuel = some (k, ws)) :
    i ≤ k := by
  induction fuel generalizing i with
  | zero => simp [firstSucc] at h
  | succ fuel ih =>
      rw [firstSucc] at h
      by_cases hc : (read_registers (env i) count).length = count
      · simp only [hc, if_pos] at h
        cases h
        exact Nat.le_refl _
      · simp only [hc, if_neg, not_false_iff] at h
        exact Nat.le_of_succ_le (ih h)

theorem firstSucc_lt {env : Nat → Resp} {count i fuel k : Nat}
    {ws : List Nat} (h : firstSucc env count i fuel = some (k, ws)) :
    k < i + fuel := by
  induction fuel generalizing i with
  | zero => simp [firstSucc] at h
  | succ fuel ih =>
      rw [firstSucc] at h
      by_cases hc : (read_registers (env i) count).length = count
      · simp only [hc, if_pos] at h
        cases h
        omega
      · simp only [hc, if_neg, not_false_iff] at h
        have := ih h
        omega

theorem firstSucc_data {env : Nat → Resp} {count i fuel k : Nat}
    {ws : List Nat} (h : firstSucc env count i fuel = some (k, ws)) :
    read_registers (env k) count = ws ∧ ws.length = count := by
  induction fuel generalizing i with
  | zero => simp [firstSucc] at h
  | succ fuel ih =>
      rw [firstSucc] at h
      by_cases hc : (read_registers (env i) count).length = count
      · simp only [hc, if_pos] at h
        cases h
        exact ⟨rfl, hc⟩
      · simp only [hc, if_neg, not_false_iff] at h
        exact ih h

theorem retry_char (env : Nat → Resp) (count : Nat)
    (apply : List Nat → HalData → HalData) :
    ∀ (fuel i : Nat) (st : HalData),
    retry_loop env count apply i fuel st =
      match firstSucc env count i fuel with
      | some (k, ws) => (apply ws (bumpN (k - i) st), (k - i) + 1)
      | none => (bumpN fuel st, fuel) := by
  intro fuel
  induction fuel with
  | zero => intro i st; rfl
  | succ fuel ih =>
      intro i st
      rw [retry_loop, firstSucc]
      by_cases hc : (read_registers (env i) count).length = count
      · simp only [hc, if_pos]
        show (apply (read_registers (env i) count) st, 1) = _
        rw [Nat.sub_self]
        rfl
      · simp only [hc, if_neg, not_false_iff]
        rw [ih (i + 1) (bump st)]
        cases hfs : firstSucc env count (i + 1) fuel with
        | none => rfl
        | some kws =>
            obtain ⟨k, ws⟩ := kws
            have hk : i + 1 ≤ k := firstSucc_ge hfs
            have h1 : k - i = (k - (i + 1)) + 1 := by omega
            show (apply ws (bumpN (k - (i + 1)) (bump st)), k - (i + 1) + 1 + 1) =
              (apply ws (bumpN (k - i) st), k - i + 1)
            rw [h1]
            rfl

theorem list_len1 {α : Type} {ws : List α} (h : ws.length = 1) :
    ∃ a, ws = [a] := by
  rcases ws with _ | ⟨a, _ | ⟨b, tl⟩⟩
  · simp at h
  · exact ⟨a, rfl⟩
  · simp [List.length_cons] at h

theorem list_len2 {α : Type} {ws : List α} (h : ws.length = 2) :
    ∃ a b, ws = [a, b] := by
  rcases ws with _ | ⟨a, _ | ⟨b, _ | ⟨c, tl⟩⟩⟩
  · simp at h
  · simp at h
  · exact ⟨a, b, rfl⟩
  · simp [List.length_cons] at h

theorem list_len3 {α : Type} {ws : List α} (h : ws.length = 3) :
    ∃ a b c, ws = [a, b, c] := by
  rcases ws with _ | ⟨a, _ | ⟨b, _ | ⟨c, _ | ⟨d, tl⟩⟩⟩⟩
  · simp at h
  · simp at h
  · simp at h
  · exact ⟨a, b, c, rfl⟩
  · simp [List.length_cons] at h

/-! ### Group-level characterizations -/

theorem read_group_char (env : Nat → Resp) (count : Nat)
    (apply : List Nat → HalData → HalData) (st : HalData) :
    (retry_loop env count apply 0 modbus_retries st).1 =
      match firstSucc env count 0 modbus_retries with
      | some (k, ws) => apply ws (bumpN k st)
      | none => bumpN modbus_retries st := by
  rw [retry_char]
  cases hfs : firstSucc env count 0 modbus_retries with
  | none => rfl
  | some kws =>
      obtain ⟨k, ws⟩ := kws
      show apply ws (bumpN (k - 0) st) = apply ws (bumpN k st)
      rw [Nat.sub_zero]

theorem retry_frame {α : Type} (env : Nat → Resp) (count : Nat)
    (apply : List Nat → HalData → HalData) (f : HalData → α)
    (hb : ∀ st, f (bump st) = f st)
    (ha : ∀ ws st, f (apply ws st) = f st) (st : HalData) :
    f ((retry_loop env count apply 0 modbus_retries st).1) = f st := by
  rw [read_group_char]
  cases hfs : firstSucc env count 0 modbus_retries with
  | none => exact proj_bumpN f hb modbus_retries st
  | some kws =>
      obtain ⟨k, ws⟩ := kws
      exact (ha ws (bumpN k st)).trans (proj_bumpN f hb k st)

theorem speedFields_read_speed (env : Nat → Resp) (st : HalData) :
    speedFields (read_speed_data env st) =
      match firstSucc env speed_reg_count 0 modbus_retries with
      | some (_, ws) =>
          (toInt16 (ws.getD 0 0), toInt16 (ws.getD 1 0), toInt16 (ws.getD 2 0))
      | none => speedFields st := by
  rw [read_speed_data, read_group_char]
  cases hfs : firstSucc env speed_reg_count 0 modbus_retries with
  | none => exact speedFields_bumpN modbus_retries st
  | some kws =>
      obtain ⟨k, ws⟩ := kws
      obtain ⟨a, b, c, rfl⟩ := list_len3 (firstSucc_data hfs).2
      rfl

theorem torqueFields_read_torque (env : Nat → Resp) (st : HalData) :
    torqueFields (read_torque_data env st) =
      match firstSucc env torque_reg_count 0 modbus_retries with
      | some (_, ws) =>
          ((ws.getD 0 0 : ℚ) / 10, (ws.getD 1 0 : ℚ) / 10, (ws.getD 2 0 : ℚ) / 10)
      | none => torqueFields st := by
  rw [read_torque_data, read_group_char]
  cases hfs : firstSucc env torque_reg_count 0 modbus_retries with
  | none => exact torqueFields_bumpN modbus_retries st
  | some kws =>
      obtain ⟨k, ws⟩ := kws
      obtain ⟨a, b, c, rfl⟩ := list_len3 (firstSucc_data hfs).2
      rfl

theorem ioFields_read_io (env : Nat → Resp) (st : HalData) :
    ioFields (read_digital_io env st) =
      match firstSucc env digital_io_reg_count 0 modbus_retries with
      | some (_, ws) => ioBits (ws.getD 0 0) (ws.getD 1 0)
      | none => ioFields st := by
  rw [read_digital_io, read_group_char]
  cases hfs : firstSucc env digital_io_reg_count 0 modbus_retries with
  | none => exact ioFields_bumpN modbus_retries st
  | some kws =>
      obtain ⟨k, ws⟩ := kws
      obtain ⟨a, b, rfl⟩ := list_len2 (firstSucc_data hfs).2
      rfl

theorem out1_read_io (env : Nat → Resp) (st : HalData) :
    (read_digital_io env st).digital_out1 =
      match firstSucc env digital_io_reg_count 0 modbus_retries with
      | some (_, ws) => (ws.getD 1 0).testBit 1
      | none => st.digital_out1 := by
  rw [read_digital_io, read_group_char]
  cases hfs : firstSucc env digital_io_reg_count 0 modbus_retries with
  | none =>
      exact proj_bumpN (fun st => st.digital_out1) (fun _ => rfl) modbus_retries st
  | some kws =>
      obtain ⟨k, ws⟩ := kws
      obtain ⟨a, b, rfl⟩ := list_len2 (firstSucc_data hfs).2
      rfl

theorem slot_read_error (env : Nat → Resp) (st : HalData) :
    (read_error_code env st).error_code =
      match firstSucc env single_register_count 0 modbus_retries with
      | some (_, ws) => ((ws.getD 0 0 : Nat) : Int)
      | none => st.error_code := by
  rw [read_error_code, read_group_char]
  cases hfs : firstSucc env single_register_count 0 modbus_retries with
  | none => exact error_code_bumpN modbus_retries st
  | some kws =>
      obtain ⟨k, ws⟩ := kws
      obtain ⟨a, rfl⟩ := list_len1 (firstSucc_data hfs).2
      rfl

theorem get_error_message_ne_empty {code : Int} (h : code ≠ 0) :
    get_error_message code ≠ "" := by
  intro hemp
  unfold get_error_message at hemp
  by_cases h1 : code = 1
  · rw [if_pos h1] at hemp; exact absurd hemp (by decide)
  rw [if_neg h1] at hemp
  by_cases h2 : code = 2
  · rw [if_pos h2] at hemp; exact absurd hemp (by decide)
  rw [if_neg h2] at hemp
  by_cases h3 : code = 3
  · rw [if_pos h3] at hemp; exact absurd hemp (by decide)
  rw [if_neg h3] at hemp
  by_cases h4 : code = 4
  · rw [if_pos h4] at hemp; exact absurd hemp (by decide)
  rw [if_neg h4] at hemp
  by_cases h5 : code = 5
  · rw [if_pos h5] at hemp; exact absurd hemp (by decide)
  rw [if_neg h5] at hemp
  by_cases h6 : code = 6
  · rw [if_pos h6] at hemp; exact absurd hemp (by decide)
  rw [if_neg h6] at hemp
  by_cases h7 : code = 12
  · rw [if_pos h7] at hemp; exact absurd hemp (by decide)
  rw [if_neg h7] at hemp
  by_cases h8 : code = 13
  · rw [if_pos h8] at hemp; exact absurd hemp (by decide)
  rw [if_neg h8] at hemp
  by_cases h9 : code = 14
  · rw [if_pos h9] at hemp; exact absurd hemp (by decide)
  rw [if_neg h9] at hemp
  by_cases h10 : code = 15
  · rw [if_pos h10] at hemp; exact absurd hemp (by decide)
  rw [if_neg h10] at hemp
  by_cases h11 : code = 16
  · rw [if_pos h11] at hemp; exact absurd hemp (by decide)
  rw [if_neg h11] at hemp
  by_cases h12 : code = 18
  · rw [if_pos h12] at hemp; exact absurd hemp (by decide)
  rw [if_neg h12] at hemp
  by_cases h13 : code = 21
  · rw [if_pos h13] at hemp; exact absurd hemp (by decide)
  rw [if_neg h13] at hemp
  by_cases h14 : code = 24
  · rw [if_pos h14] at hemp; exact absurd hemp (by decide)
  rw [if_neg h14] at hemp
  by_cases h15 : code = 26
  · rw [if_pos h15] at hemp; exact absurd hemp (by decide)
  rw [if_neg h15] at hemp
  by_cases h16 : code = 27
  · rw [if_pos h16] at hemp; exact absurd hemp (by decide)
  rw [if_neg h16] at hemp
  by_cases h17 : code = 29
  · rw [if_pos h17] at hemp; exact absurd hemp (by decide)
  rw [if_neg h17] at hemp
  by_cases h18 : code = 36
  · rw [if_pos h18] at hemp; exact absurd hemp (by decide)
  rw [if_neg h18] at hemp
  by_cases h19 : code = 38
  · rw [if_pos h19] at hemp; exact absurd hemp (by decide)
  rw [if_neg h19] at hemp
  by_cases h20 : code = 39
  · rw [if_pos h20] at hemp; exact absurd hemp (by decide)
  rw [if_neg h20] at hemp
  by_cases h21 : code = 0
  · exact h h21
  rw [if_neg h21] at hemp
  exact absurd hemp (by decide)

/-! ### Frame instances for whole group reads -/

theorem speedFields_read_torque_frame (env : Nat → Resp) (st : HalData) :
    speedFields (read_torque_data env st) = speedFields st :=
  retry_frame env torque_reg_count torque_apply speedFields (fun _ => rfl)
    speedFields_torque_apply st

theorem speedFields_read_io_frame (env : Nat → Resp) (st : HalData) :
    speedFields (read_digital_io env st) = speedFields st :=
  retry_frame env digital_io_reg_count io_apply speedFields (fun _ => rfl)
    speedFields_io_apply st

theorem speedFields_read_err_frame (env : Nat → Resp) (st : HalData) :
    speedFields (read_error_code env st) = speedFields st :=
  retry_frame env single_register_count error_apply speedFields (fun _ => rfl)
    speedFields_error_apply st

theorem torqueFields_read_speed_frame (env : Nat → Resp) (st : HalData) :
    torqueFields (read_speed_data env st) = torqueFields st :=
  retry_frame env speed_reg_count speed_apply torqueFields (fun _ => rfl)
    torqueFields_speed_apply st

theorem torqueFields_read_io_frame (env : Nat → Resp) (st : HalData) :
    torqueFields (read_digital_io env st) = torqueFields st :=
  retry_frame env digital_io_reg_count io_apply torqueFields (fun _ => rfl)
    torqueFields_io_apply st

theorem torqueFields_read_err_frame (env : Nat → Resp) (st : HalData) :
    torqueFields (read_error_code env st) = torqueFields st :=
  retry_frame env single_register_count error_apply torqueFields (fun _ => rfl)
    torqueFields_error_apply st

theorem ioFields_read_speed_frame (env : Nat → Resp) (st : HalData) :
    ioFields (read_speed_data env st) = ioFields st :=
  retry_frame env speed_reg_count speed_apply ioFields (fun _ => rfl)
    ioFields_speed_apply st

theorem ioFields_read_torque_frame (env : Nat → Resp) (st : HalData) :
    ioFields (read_torque_data env st) = ioFields st :=
  retry_frame env torque_reg_count torque_apply ioFields (fun _ => rfl)
    ioFields_torque_apply st

theorem ioFields_read_err_frame (env : Nat → Resp) (st : HalData) :
    ioFields (read_error_code env st) = ioFields st :=
  retry_frame env single_register_count error_apply ioFields (fun _ => rfl)
    ioFields_error_apply st

theorem voltFields_read_speed_frame (env : Nat → Resp) (st : HalData) :
    voltFields (read_speed_data env st) = voltFields st :=
  retry_frame env speed_reg_count speed_apply voltFields (fun _ => rfl)
    voltFields_speed_apply st

theorem voltFields_read_torque_frame (env : Nat → Resp) (st : HalData) :
    voltFields (read_torque_data env st) = voltFields st :=
  retry_frame env torque_reg_count torque_apply voltFields (fun _ => rfl)
    voltFields_torque_apply st

theorem voltFields_read_io_frame (env : Nat → Resp) (st : HalData) :
    voltFields (read_digital_io env st) = voltFields st :=
  retry_frame env digital_io_reg_count io_apply voltFields (fun _ => rfl)
    voltFields_io_apply st

theorem voltFields_read_err_frame (env : Nat → Resp) (st : HalData) :
    voltFields (read_error_code env st) = voltFields st :=
  retry_frame env single_register_count error_apply voltFields (fun _ => rfl)
    voltFields_error_apply st

theorem slot_read_speed_frame (env : Nat → Resp) (st : HalData) :
    (read_speed_data env st).error_code = st.error_code :=
  retry_frame env speed_reg_count speed_apply (fun st => st.error_code)
    (fun _ => rfl) error_code_speed_apply st

theorem slot_read_torque_frame (env : Nat → Resp) (st : HalData) :
    (read_torque_data env st).error_code = st.error_code :=
  retry_frame env torque_reg_count torque_apply (fun st => st.error_code)
    (fun _ => rfl) error_code_torque_apply st

theorem slot_read_io_frame (env : Nat → Resp) (st : HalData) :
    (read_digital_io env st).error_code = st.error_code :=
  retry_frame env digital_io_reg_count io_apply (fun st => st.error_code)
    (fun _ => rfl) error_code_io_apply st

/-! ### Decomposition of one polling cycle -/

theorem read_data_alarm (env : CycleEnv) (e : Engine)
    (hb : (read_digital_io env.io (read_torque_data env.torque
      (read_speed_data env.speed e.hal))).digital_out1 = true) :
    read_data env e =
      ({ hal := read_error_code env.err (read_digital_io env.io
            (read_torque_data env.torque (read_speed_data env.speed e.hal)))
         error_code := (print_error_message (read_error_code env.err
            (read_digital_io env.io (read_torque_data env.torque
              (read_speed_data env.speed e.hal)))) e.error_code).1 },
       (print_error_message (read_error_code env.err (read_digital_io env.io
          (read_torque_data env.torque (read_speed_data env.speed e.hal))))
         e.error_code).2) := by
  unfold read_data
  simp [hb]

theorem read_data_clear (env : CycleEnv) (e : Engine)
    (hb : (read_digital_io env.io (read_torque_data env.torque
      (read_speed_data env.speed e.hal))).digital_out1 = false) :
    read_data env e =
      ({ hal := read_digital_io env.io (read_torque_data env.torque
          (read_speed_data env.speed e.hal))
         error_code := 0 }, none) := by
  unfold read_data
  simp [hb]

/-! ### Claim theorems -/

/-- C3: per telemetry group and polling cycle the retry loop makes at most 5
transport attempts; if every attempt fails it makes exactly 5 attempts
before giving up, and if the first full-count attempt is attempt `k`
(0-based) it makes exactly `k + 1` attempts, none after the success.  Every
group read (`read_speed_data`, `read_torque_data`, `read_digital_IO`,
`read_error_code`) is `retry_loop` at its own register count and decode
function, with `modbus_retries = 5`. -/
theorem C3_retry_ceiling (env : Nat → Resp) (count : Nat)
    (apply : List Nat → HalData → HalData) (st : HalData) :
    (retry_loop env count apply 0 modbus_retries st).2 ≤ 5 ∧
    (firstSucc env count 0 modbus_retries = none →
      (retry_loop env count apply 0 modbus_retries st).2 = 5) ∧
    (∀ k ws, firstSucc env count 0 modbus_retries = some (k, ws) →
      (retry_loop env count apply 0 modbus_retries st).2 = k + 1) := by
  refine ⟨?_, ?_, ?_⟩
  · rw [retry_char]
    cases hfs : firstSucc env count 0 modbus_retries with
    | none => exact Nat.le_refl 5
    | some kws =>
        obtain ⟨k, ws⟩ := kws
        have hk : k < 5 := by simpa [modbus_retries] using firstSucc_lt hfs
        show k - 0 + 1 ≤ 5
        omega
  · intro hn
    rw [retry_char, hn]
    rfl
  · intro k ws hfs
    rw [retry_char, hfs]
    show k - 0 + 1 = k + 1
    rw [Nat.sub_zero]

/-- Witness for C3: with an oracle failing on attempt 0 and succeeding on
attempt 1, the speed-group retry loop makes exactly 2 attempts. -/
theorem C3_retry_ceiling_witness :
    (retry_loop envSecondTry speed_reg_count speed_apply 0 modbus_retries
      HalData.initial).2 = 1 + 1 :=
  (C3_retry_ceiling envSecondTry speed_reg_count speed_apply HalData.initial).2.2
    1 [7, 8, 9] (by decide)

/-- C4: a block-read attempt that does not return the requested count
transforms the state by `bump` alone — the failure counter grows by exactly
one (it is a `hal_u32_t`, hence the `2 ^ 32` bound hypothesis) and every
telemetry field is untouched; moreover each whole group read either leaves
its block fields exactly as they were or overwrites all of them from one
full-count read (shown for the torque and digital-I/O groups the claim
names). -/
theorem C4_failed_attempt (env : Nat → Resp) (count : Nat)
    (apply : List Nat → HalData → HalData) (i fuel : Nat) (st : HalData)
    (hfail : (read_registers (env i) count).length ≠ count)
    (hsmall : st.modbus_errors + 1 < 4294967296) :
    retry_loop env count apply i (fuel + 1) st =
      ((retry_loop env count apply (i + 1) fuel (bump st)).1,
       (retry_loop env count apply (i + 1) fuel (bump st)).2 + 1) ∧
    (bump st).modbus_errors = st.modbus_errors + 1 ∧
    speedFields (bump st) = speedFields st ∧
    torqueFields (bump st) = torqueFields st ∧
    ioFields (bump st) = ioFields st ∧
    voltFields (bump st) = voltFields st ∧
    (bump st).error_code = st.error_code ∧
    (torqueFields (read_torque_data env st) = torqueFields st ∨
      ∃ k ws, firstSucc env torque_reg_count 0 modbus_retries = some (k, ws) ∧
        torqueFields (read_torque_data env st) =
          ((ws.getD 0 0 : ℚ) / 10, (ws.getD 1 0 : ℚ) / 10,
           (ws.getD 2 0 : ℚ) / 10)) ∧
    (ioFields (read_digital_io env st) = ioFields st ∨
      ∃ k ws, firstSucc env digital_io_reg_count 0 modbus_retries = some (k, ws) ∧
        ioFields (read_digital_io env st) = ioBits (ws.getD 0 0) (ws.getD 1 0)) := by
  refine ⟨?_, Nat.mod_eq_of_lt hsmall, rfl, rfl, rfl, rfl, rfl, ?_, ?_⟩
  · rw [retry_loop]
    split
    · next hc => exact absurd hc hfail
    · rfl
  · rw [torqueFields_read_torque]
    cases hfs : firstSucc env torque_reg_count 0 modbus_retries with
    | none => exact Or.inl rfl
    | some kws =>
        obtain ⟨k, ws⟩ := kws
        exact Or.inr ⟨k, ws, rfl, rfl⟩
  · rw [ioFields_read_io]
    cases hfs : firstSucc env digital_io_reg_count 0 modbus_retries with
    | none => exact Or.inl rfl
    | some kws =>
        obtain ⟨k, ws⟩ := kws
        exact Or.inr ⟨k, ws, rfl, rfl⟩

/-- Witness for C4: a concrete failing attempt on the torque group performs
`bump`, and `bump` on the initial state sets the counter to exactly 1. -/
theorem C4_failed_attempt_witness :
    retry_loop envFail torque_reg_count torque_apply 0 (4 + 1) HalData.initial =
      ((retry_loop envFail torque_reg_count torque_apply 1 4
          (bump HalData.initial)).1,
       (retry_loop envFail torque_reg_count torque_apply 1 4
          (bump HalData.initial)).2 + 1) ∧
    (bump HalData.initial).modbus_errors = HalData.initial.modbus_errors + 1 := by
  have h := C4_failed_attempt envFail torque_reg_count torque_apply 0 4
    HalData.initial (by decide) (by decide)
  exact ⟨h.1, h.2.1⟩

theorem read_data_alarm_hal (env : CycleEnv) (e : Engine)
    (hb : (read_digital_io env.io (read_torque_data env.torque
      (read_speed_data env.speed e.hal))).digital_out1 = true) :
    (read_data env e).1.hal = read_error_code env.err (read_digital_io env.io
      (read_torque_data env.torque (read_speed_data env.speed e.hal))) := by
  rw [read_data_alarm env e hb]

theorem read_data_alarm_member (env : CycleEnv) (e : Engine)
    (hb : (read_digital_io env.io (read_torque_data env.torque
      (read_speed_data env.speed e.hal))).digital_out1 = true) :
    (read_data env e).1.error_code =
      (print_error_message (read_error_code env.err (read_digital_io env.io
        (read_torque_data env.torque (read_speed_data env.speed e.hal))))
        e.error_code).1 := by
  rw [read_data_alarm env e hb]

theorem read_data_alarm_report (env : CycleEnv) (e : Engine)
    (hb : (read_digital_io env.io (read_torque_data env.torque
      (read_speed_data env.speed e.hal))).digital_out1 = true) :
    (read_data env e).2 =
      (print_error_message (read_error_code env.err (read_digital_io env.io
        (read_torque_data env.torque (read_speed_data env.speed e.hal))))
        e.error_code).2 := by
  rw [read_data_alarm env e hb]

theorem read_data_clear_hal (env : CycleEnv) (e : Engine)
    (hb : (read_digital_io env.io (read_torque_data env.torque
      (read_speed_data env.speed e.hal))).digital_out1 = false) :
    (read_data env e).1.hal = read_digital_io env.io
      (read_torque_data env.torque (read_speed_data env.speed e.hal)) := by
  rw [read_data_clear env e hb]

theorem read_data_clear_member (env : CycleEnv) (e : Engine)
    (hb : (read_digital_io env.io (read_torque_data env.torque
      (read_speed_data env.speed e.hal))).digital_out1 = false) :
    (read_data env e).1.error_code = 0 := by
  rw [read_data_clear env e hb]

theorem read_data_clear_report (env : CycleEnv) (e : Engine)
    (hb : (read_digital_io env.io (read_torque_data env.torque
      (read_speed_data env.speed e.hal))).digital_out1 = false) :
    (read_data env e).2 = none := by
  rw [read_data_clear env e hb]

theorem speedFields_read_speed_congr (env : Nat → Resp) {st st' : HalData}
    (h : speedFields st = speedFields st') :
    speedFields (read_speed_data env st) = speedFields (read_speed_data env st') := by
  rw [speedFields_read_speed, speedFields_read_speed]
  cases firstSucc env speed_reg_count 0 modbus_retries with
  | none => exact h
  | some kws => rfl

theorem torqueFields_read_torque_congr (env : Nat → Resp) {st st' : HalData}
    (h : torqueFields st = torqueFields st') :
    torqueFields (read_torque_data env st) =
      torqueFields (read_torque_data env st') := by
  rw [torqueFields_read_torque, torqueFields_read_torque]
  cases firstSucc env torque_reg_count 0 modbus_retries with
  | none => exact h
  | some kws => rfl

theorem ioFields_read_io_congr (env : Nat → Resp) {st st' : HalData}
    (h : ioFields st = ioFields st') :
    ioFields (read_digital_io env st) = ioFields (read_digital_io env st') := by
  rw [ioFields_read_io, ioFields_read_io]
  cases firstSucc env digital_io_reg_count 0 modbus_retries with
  | none => exact h
  | some kws => rfl

/-- C5: one polling cycle processes every group regardless of other groups'
failures: the speed, torque and digital-I/O slots after `read_data` are
exactly what the group's own attempt oracle determines, independent of how
the other groups fared (and `read_data` is a total function: no failure
escapes it). -/
theorem C5_group_isolation (env : CycleEnv) (e : Engine) :
    speedFields ((read_data env e).1.hal) =
      speedFields (read_speed_data env.speed e.hal) ∧
    torqueFields ((read_data env e).1.hal) =
      torqueFields (read_torque_data env.torque e.hal) ∧
    ioFields ((read_data env e).1.hal) =
      ioFields (read_digital_io env.io e.hal) := by
  by_cases hb : (read_digital_io env.io (read_torque_data env.torque
      (read_speed_data env.speed e.hal))).digital_out1 = true
  · rw [read_data_alarm_hal env e hb]
    refine ⟨?_, ?_, ?_⟩
    · rw [speedFields_read_err_frame, speedFields_read_io_frame,
        speedFields_read_torque_frame]
    · rw [torqueFields_read_err_frame, torqueFields_read_io_frame]
      exact torqueFields_read_torque_congr env.torque
        (torqueFields_read_speed_frame env.speed e.hal)
    · rw [ioFields_read_err_frame]
      exact ioFields_read_io_congr env.io
        ((ioFields_read_torque_frame env.torque _).trans
          (ioFields_read_speed_frame env.speed e.hal))
  · rw [read_data_clear_hal env e (by simpa using hb)]
    refine ⟨?_, ?_, ?_⟩
    · rw [speedFields_read_io_frame, speedFields_read_torque_frame]
    · rw [torqueFields_read_io_frame]
      exact torqueFields_read_torque_congr env.torque
        (torqueFields_read_speed_frame env.speed e.hal)
    · exact ioFields_read_io_congr env.io
        ((ioFields_read_torque_frame env.torque _).trans
          (ioFields_read_speed_frame env.speed e.hal))

/-- C6: whenever a speed-block read succeeds (a full 3-register count is
returned, possibly after retries), the commanded/feedback/deviation speed
slots are set to the signed two's-complement 16-bit reinterpretation of raw
words 0, 1 and 2; `toInt16` is exactly `static_cast<int16_t>` and maps
`0xFFFF` to `-1`. -/
theorem C6_speed_signed_decode (env : Nat → Resp) (st : HalData) (k : Nat)
    (ws : List Nat)
    (h : firstSucc env speed_reg_count 0 modbus_retries = some (k, ws)) :
    (read_speed_data env st).commanded_speed = toInt16 (ws.getD 0 0) ∧
    (read_speed_data env st).feedback_speed = toInt16 (ws.getD 1 0) ∧
    (read_speed_data env st).deviation_speed = toInt16 (ws.getD 2 0) ∧
    toInt16 65535 = -1 := by
  have hs := speedFields_read_speed env st
  rw [h] at hs
  exact ⟨congrArg Prod.fst hs, congrArg (fun p => p.2.1) hs,
    congrArg (fun p => p.2.2) hs, by decide⟩

/-- Witness for C6: a successful speed read of raw words
`[0xFFFF, 100, 2]` decodes to -1, 100 and 2 RPM. -/
theorem C6_speed_signed_decode_witness :
    (read_speed_data envSpeedNeg HalData.initial).commanded_speed = -1 ∧
    (read_speed_data envSpeedNeg HalData.initial).feedback_speed = 100 ∧
    (read_speed_data envSpeedNeg HalData.initial).deviation_speed = 2 := by
  obtain ⟨h1, h2, h3, _⟩ := C6_speed_signed_decode envSpeedNeg HalData.initial 0
    [65535, 100, 2] (by decide)
  refine ⟨?_, ?_, ?_⟩
  · rw [h1]; decide
  · rw [h2]; decide
  · rw [h3]; decide

/-- C7: whenever a torque-block read succeeds (a full 3-register count is
returned, possibly after retries), the commanded/feedback/deviation torque
slots are set to the unsigned raw words 0, 1 and 2 divided by 10.0. -/
theorem C7_torque_scaled_decode (env : Nat → Resp) (st : HalData) (k : Nat)
    (ws : List Nat)
    (h : firstSucc env torque_reg_count 0 modbus_retries = some (k, ws)) :
    (read_torque_data env st).commanded_torque = (ws.getD 0 0 : ℚ) / 10 ∧
    (read_torque_data env st).feedback_torque = (ws.getD 1 0 : ℚ) / 10 ∧
    (read_torque_data env st).deviation_torque = (ws.getD 2 0 : ℚ) / 10 := by
  have hs := torqueFields_read_torque env st
  rw [h] at hs
  exact ⟨congrArg Prod.fst hs, congrArg (fun p => p.2.1) hs,
    congrArg (fun p => p.2.2) hs⟩

/-- Witness for C7: a successful torque read of raw words `[55, 50, 5]`
decodes to 5.5 %, 5.0 % and 0.5 %. -/
theorem C7_torque_scaled_decode_witness :
    (read_torque_data envTorque55 HalData.initial).commanded_torque = 5.5 ∧
    (read_torque_data envTorque55 HalData.initial).feedback_torque = 5.0 ∧
    (read_torque_data envTorque55 HalData.initial).deviation_torque = 0.5 := by
  obtain ⟨h1, h2, h3⟩ := C7_torque_scaled_decode envTorque55 HalData.initial 0
    [55, 50, 5] (by decide)
  refine ⟨?_, ?_, ?_⟩
  · rw [h1]; norm_num
  · rw [h2]; norm_num
  · rw [h3]; norm_num

/-- C8: whenever a digital-I/O block read succeeds (a full 2-register count
is returned, possibly after retries), input line `i` is bit `i` of raw
word 0 (`0 ≤ i ≤ 7`) and output line `i` is bit `i` of raw word 1
(`0 ≤ i ≤ 5`), least-significant bit first — the `ioFields` bundle lists
inputs 0-7 then outputs 0-5, and `ioBits` lists exactly those test bits. -/
theorem C8_io_bit_decode (env : Nat → Resp) (st : HalData) (k : Nat)
    (ws : List Nat)
    (h : firstSucc env digital_io_reg_count 0 modbus_retries = some (k, ws)) :
    ioFields (read_digital_io env st) = ioBits (ws.getD 0 0) (ws.getD 1 0) := by
  rw [ioFields_read_io, h]

/-- Witness for C8: a successful digital-I/O read of raw words
`[0b101, 0b10]` sets input bits 0 and 2 and output bit 1, all others
false. -/
theorem C8_io_bit_decode_witness :
    ioFields (read_digital_io envIo5 HalData.initial) =
      [true, false, true, false, false, false, false, false,
       false, true, false, false, false, false] := by
  rw [C8_io_bit_decode envIo5 HalData.initial 0 [5, 2] (by decide)]
  decide

/-! ### Alarm state machine lemmas -/

theorem print_spec (st : HalData) (member : Int) :
    print_error_message st member =
      if st.error_code = member then (member, none)
      else if get_error_message st.error_code = "" then (st.error_code, none)
      else (st.error_code, some (st.error_code, get_error_message st.error_code)) :=
  rfl

theorem alarm_cycle_out1 (env : CycleEnv) (c : Nat) (e : Engine)
    (h : AlarmCycle env c) :
    (read_digital_io env.io (read_torque_data env.torque
      (read_speed_data env.speed e.hal))).digital_out1 = true := by
  obtain ⟨⟨k, a, b, hio, hbit⟩, _⟩ := h
  rw [out1_read_io, hio]
  exact hbit

theorem alarm_cycle_slot (env : CycleEnv) (c : Nat) (st : HalData)
    (h : AlarmCycle env c) :
    (read_error_code env.err st).error_code = (c : Int) := by
  obtain ⟨_, k, herr⟩ := h
  rw [slot_read_error, herr]
  rfl

theorem cycle_alarm_new (env : CycleEnv) (c : Nat) (e : Engine)
    (h : AlarmCycle env c) (hne : (c : Int) ≠ e.error_code)
    (hc0 : (c : Int) ≠ 0) :
    (read_data env e).1.error_code = (c : Int) ∧
    (read_data env e).2 = some ((c : Int), get_error_message (c : Int)) ∧
    (read_data env e).1.hal.error_code = (c : Int) := by
  have hb := alarm_cycle_out1 env c e h
  have hm := read_data_alarm_member env e hb
  have hr := read_data_alarm_report env e hb
  have hh := read_data_alarm_hal env e hb
  have hslot := alarm_cycle_slot env c (read_digital_io env.io
    (read_torque_data env.torque (read_speed_data env.speed e.hal))) h
  rw [print_spec, hslot, if_neg hne,
    if_neg (get_error_message_ne_empty hc0)] at hm hr
  exact ⟨hm, hr, by rw [hh]; exact hslot⟩

theorem cycle_alarm_same (env : CycleEnv) (c : Nat) (e : Engine)
    (h : AlarmCycle env c) (heq : (c : Int) = e.error_code) :
    (read_data env e).1.error_code = (c : Int) ∧
    (read_data env e).2 = none ∧
    (read_data env e).1.hal.error_code = (c : Int) := by
  have hb := alarm_cycle_out1 env c e h
  have hm := read_data_alarm_member env e hb
  have hr := read_data_alarm_report env e hb
  have hh := read_data_alarm_hal env e hb
  have hslot := alarm_cycle_slot env c (read_digital_io env.io
    (read_torque_data env.torque (read_speed_data env.speed e.hal))) h
  rw [print_spec, hslot, if_pos heq] at hm hr
  exact ⟨hm.trans heq.symm, hr, by rw [hh]; exact hslot⟩

theorem run_alarm_steady (c : Nat) :
    ∀ (envs : List CycleEnv) (e : Engine), e.error_code = (c : Int) →
    (∀ env ∈ envs, AlarmCycle env c) →
    (run_cycles envs e).2 = List.replicate envs.length none ∧
    (run_cycles envs e).1.error_code = (c : Int) := by
  intro envs
  induction envs with
  | nil => intro e he _; exact ⟨rfl, he⟩
  | cons env rest ih =>
      intro e he hall
      have h := hall env (List.mem_cons_self _ _)
      obtain ⟨hm, hr, _⟩ := cycle_alarm_same env c e h he.symm
      obtain ⟨ih1, ih2⟩ := ih (read_data env e).1 hm
        (fun env2 hmem => hall env2 (List.mem_cons_of_mem _ hmem))
      refine ⟨?_, ih2⟩
      show (read_data env e).2 :: (run_cycles rest (read_data env e).1).2 =
        List.replicate (rest.length + 1) none
      rw [hr, ih1, List.replicate_succ]

/-- C1: during one alarm episode — the alarm bit observed true with the
same non-zero code `c` on every cycle, the machine having been in the
`Clear` state before the episode — the report for `c` is emitted exactly
once, on the first cycle, and never on the later cycles; and after any
cycle that observes the alarm bit false, a following alarm cycle with
non-zero code `c` emits the report again, even if `c` had been reported in
an earlier, already-cleared episode. -/
theorem C1_alarm_once_per_episode :
    (∀ (c : Nat) (envs : List CycleEnv) (e : Engine),
      (c : Int) ≠ 0 → e.error_code = 0 → envs ≠ [] →
      (∀ env ∈ envs, AlarmCycle env c) →
      (run_cycles envs e).2 =
        some ((c : Int), get_error_message (c : Int)) ::
          List.replicate (envs.length - 1) none) ∧
    (∀ (c : Nat) (envC envA : CycleEnv) (e : Engine),
      ClearObserved envC e → AlarmCycle envA c → (c : Int) ≠ 0 →
      (run_cycles [envC, envA] e).2 =
        [none, some ((c : Int), get_error_message (c : Int))]) := by
  constructor
  · intro c envs e hc0 he hne hall
    match envs, hne with
    | env :: rest, _ =>
      have h := hall env (List.mem_cons_self _ _)
      obtain ⟨hm, hr, _⟩ := cycle_alarm_new env c e h (he ▸ hc0) hc0
      obtain ⟨h1, _⟩ := run_alarm_steady c rest (read_data env e).1 hm
        (fun env2 hmem => hall env2 (List.mem_cons_of_mem _ hmem))
      show (read_data env e).2 :: (run_cycles rest (read_data env e).1).2 = _
      rw [hr, h1]
      simp
  · intro c envC envA e hclear halarm hc0
    have hclear2 := read_data_clear_member envC e hclear
    have hrep1 := read_data_clear_report envC e hclear
    obtain ⟨_, hr, _⟩ := cycle_alarm_new envA c (read_data envC e).1 halarm
      (hclear2 ▸ hc0) hc0
    show (read_data envC e).2 ::
      ((read_data envA (read_data envC e).1).2 :: []) = _
    rw [hrep1, hr]

/-- Witness for C1: three consecutive alarm cycles with code 12 from the
initial state report overvoltage exactly once; and after a clearing cycle,
an alarm cycle with code 12 reports again even though the engine had
already reported 12 before. -/
theorem C1_alarm_once_per_episode_witness :
    (run_cycles [envAlarm12, envAlarm12, envAlarm12] Engine.initial).2 =
      some (12, get_error_message 12) :: List.replicate 2 none ∧
    (run_cycles [envClear, envAlarm12] engineReported12).2 =
      [none, some (12, get_error_message 12)] := by
  constructor
  · exact C1_alarm_once_per_episode.1 12 [envAlarm12, envAlarm12, envAlarm12]
      Engine.initial (by decide) rfl (List.cons_ne_nil _ _)
      (fun env hmem => by
        have halarm : AlarmCycle envAlarm12 12 :=
          ⟨⟨0, 0, 2, by decide, by decide⟩, 0, by decide⟩
        have he : env = envAlarm12 := by simpa using hmem
        rw [he]
        exact halarm)
  · exact C1_alarm_once_per_episode.2 12 envClear envAlarm12 engineReported12
      (by unfold ClearObserved; decide)
      ⟨⟨0, 0, 2, by decide, by decide⟩, 0, by decide⟩ (by decide)

/-- C2 (amended): when the alarm bit is observed true and all 5 attempts of
the error-code read fail, the published error-code slot is left unchanged,
but `print_error_message` still runs against the stale slot value: if the
stale value equals the remembered code, the remembered code is unchanged and
no report is emitted; otherwise the remembered code is set to the stale
value and a report carrying the stale value is emitted whenever its message
is non-empty. -/
theorem C2_error_read_failure (env : CycleEnv) (e : Engine)
    (halarm : (read_digital_io env.io (read_torque_data env.torque
      (read_speed_data env.speed e.hal))).digital_out1 = true)
    (hfail : firstSucc env.err single_register_count 0 modbus_retries = none) :
    (read_data env e).1.hal.error_code = e.hal.error_code ∧
    (e.hal.error_code = e.error_code →
      (read_data env e).1.error_code = e.error_code ∧
      (read_data env e).2 = none) ∧
    (e.hal.error_code ≠ e.error_code →
      (read_data env e).1.error_code = e.hal.error_code ∧
      (get_error_message e.hal.error_code = "" → (read_data env e).2 = none) ∧
      (get_error_message e.hal.error_code ≠ "" →
        (read_data env e).2 =
          some (e.hal.error_code, get_error_message e.hal.error_code))) := by
  have hm := read_data_alarm_member env e halarm
  have hr := read_data_alarm_report env e halarm
  have hh := read_data_alarm_hal env e halarm
  have hstale : (read_error_code env.err (read_digital_io env.io
      (read_torque_data env.torque (read_speed_data env.speed e.hal)))).error_code =
      e.hal.error_code := by
    rw [slot_read_error, hfail, slot_read_io_frame, slot_read_torque_frame,
      slot_read_speed_frame]
  rw [print_spec, hstale] at hm hr
  refine ⟨by rw [hh]; exact hstale, ?_, ?_⟩
  · intro heq
    rw [if_pos heq] at hm hr
    exact ⟨hm, hr⟩
  · intro hne
    rw [if_neg hne] at hm hr
    by_cases hemp : get_error_message e.hal.error_code = ""
    · rw [if_pos hemp] at hm hr
      exact ⟨hm, fun _ => hr, fun hn => absurd hemp hn⟩
    · rw [if_neg hemp] at hm hr
      exact ⟨hm, fun hcontra => absurd hcontra hemp, fun _ => hr⟩

/-- Witness for C2: with the alarm bit set, every error-code attempt
failing, and the stale slot equal to the remembered code, the cycle leaves
the slot and the remembered code unchanged and emits nothing. -/
theorem C2_error_read_failure_witness :
    (read_data envErrFail Engine.initial).1.hal.error_code =
      Engine.initial.hal.error_code ∧
    (read_data envErrFail Engine.initial).1.error_code =
      Engine.initial.error_code ∧
    (read_data envErrFail Engine.initial).2 = none := by
  have h := C2_error_read_failure envErrFail Engine.initial (by decide) (by decide)
  exact ⟨h.1, (h.2.1 rfl).1, (h.2.1 rfl).2⟩

/-- Counterexample to C2 as stated: from the initial state, an alarm cycle
with code 7 reports it, a clear cycle resets the remembered code, and a
third cycle with the alarm bit true whose 5 error-code read attempts all
fail nevertheless emits a report again (from the stale slot value 7) and
changes the remembered code from 0 to 7. -/
theorem C2_error_read_failure_counterexample :
    (run_cycles [envAlarm7, envClear, envErrFail] Engine.initial).2 =
      [some (7, "unknown error code"), none, some (7, "unknown error code")] ∧
    (run_cycles [envAlarm7, envClear, envErrFail] Engine.initial).1.error_code
      = 7 := by
  decide

/-- C10: after a cycle that observes the alarm bit false,
`get_current_error` returns `no_error` (0) and no report is emitted, but
the published error-code output slot is not reset: it keeps its previous
value (the last value stored by a successful error-code read), so the
external error-code signal can stay non-zero while the internal alarm state
is Clear. -/
theorem C10_clear_keeps_slot (env : CycleEnv) (e : Engine)
    (hclear : (read_digital_io env.io (read_torque_data env.torque
      (read_speed_data env.speed e.hal))).digital_out1 = false) :
    get_current_error (read_data env e).1 = 0 ∧
    (read_data env e).1.error_code = 0 ∧
    (read_data env e).2 = none ∧
    (read_data env e).1.hal.error_code = e.hal.error_code := by
  have hm := read_data_clear_member env e hclear
  have hr := read_data_clear_report env e hclear
  have hh := read_data_clear_hal env e hclear
  refine ⟨hm, hm, hr, ?_⟩
  rw [hh, slot_read_io_frame, slot_read_torque_frame, slot_read_speed_frame]

/-- Witness for C10: a clear cycle on an engine whose slot holds 7 yields
internal state 0 while the published slot stays 7. -/
theorem C10_clear_keeps_slot_witness :
    get_current_error (read_data envClear engineStale7).1 = 0 ∧
    (read_data envClear engineStale7).1.hal.error_code = 7 := by
  have h := C10_clear_keeps_slot envClear engineStale7 (by decide)
  exact ⟨h.1, h.2.2.2⟩

/-! ### The legacy flat-layout read -/

theorem legacy_success_proj (env : Nat → Resp) :
    ∀ (fuel i k : Nat) (ws : List Nat) (h : LegacyHal),
    legacyFirst env i fuel = some (k, ws) →
    (legacy_read_data env i fuel h).1.commanded_speed = ws.getD 0 0 ∧
    (legacy_read_data env i fuel h).1.feedback_speed = ws.getD 1 0 ∧
    (legacy_read_data env i fuel h).1.deviation_speed = ws.getD 2 0 ∧
    (legacy_read_data env i fuel h).1.dc_bus_volt = ws.getD 9 0 ∧
    (legacy_read_data env i fuel h).1.torque_load = ws.getD 10 0 ∧
    (legacy_read_data env i fuel h).1.res_braking = ws.getD 11 0 ∧
    (legacy_read_data env i fuel h).1.torque_overload = ws.getD 12 0 ∧
    (legacy_read_data env i fuel h).2 = 0 := by
  intro fuel
  induction fuel with
  | zero => intro i k ws h hf; simp [legacyFirst] at hf
  | succ fuel ih =>
      intro i k ws h hf
      rw [legacyFirst] at hf
      rw [legacy_read_data]
      cases henv : env i with
      | none =>
          rw [henv] at hf
          exact ih (i + 1) k ws _ hf
      | some ws2 =>
          rw [henv] at hf
          dsimp only at hf ⊢
          by_cases hlen : ws2.length = legacy_reg_count
          · rw [if_pos hlen] at hf
            rw [if_pos hlen]
            cases hf
            exact ⟨rfl, rfl, rfl, rfl, rfl, rfl, rfl, rfl⟩
          · rw [if_neg hlen] at hf
            rw [if_neg hlen]
            exact ih (i + 1) k ws _ hf

/-- C9 (amended): the split-layout engine issues no read covering the
voltage/load/braking/overload group — its polling cycle leaves the
dc-bus-volt, torque-load, res-braking and torque-overload slots unchanged
whatever the transport returns; only the legacy flat-layout `read_data`
covers that group, via its single 13-register superblock read which, on a
full-count read, stores the unsigned raw words 9-12 into those four
slots. -/
theorem C9_voltage_group (env : CycleEnv) (e : Engine) :
    voltFields ((read_data env e).1.hal) = voltFields e.hal ∧
    (∀ (lenv : Nat → Resp) (h : LegacyHal) (k : Nat) (ws : List Nat),
      legacyFirst lenv 0 modbus_retries = some (k, ws) →
      (legacy_read_data lenv 0 modbus_retries h).1.dc_bus_volt = ws.getD 9 0 ∧
      (legacy_read_data lenv 0 modbus_retries h).1.torque_load = ws.getD 10 0 ∧
      (legacy_read_data lenv 0 modbus_retries h).1.res_braking = ws.getD 11 0 ∧
      (legacy_read_data lenv 0 modbus_retries h).1.torque_overload = ws.getD 12 0 ∧
      (legacy_read_data lenv 0 modbus_retries h).2 = 0) := by
  constructor
  · by_cases hb : (read_digital_io env.io (read_torque_data env.torque
        (read_speed_data env.speed e.hal))).digital_out1 = true
    · rw [read_data_alarm_hal env e hb, voltFields_read_err_frame,
        voltFields_read_io_frame, voltFields_read_torque_frame,
        voltFields_read_speed_frame]
    · rw [read_data_clear_hal env e (by simpa using hb),
        voltFields_read_io_frame, voltFields_read_torque_frame,
        voltFields_read_speed_frame]
  · intro lenv h k ws hf
    obtain ⟨_, _, _, h9, h10, h11, h12, hret⟩ :=
      legacy_success_proj lenv modbus_retries 0 k ws h hf
    exact ⟨h9, h10, h11, h12, hret⟩

/-- Witness for C9: the split-layout cycle with every read succeeding
leaves the sentinel voltage-group values in place; the legacy read of a
full 13-register block `[1..13]` stores 10, 11, 12, 13 into the four
voltage-group slots and returns 0. -/
theorem C9_voltage_group_witness :
    voltFields ((read_data envAll7 engineVoltSentinel).1.hal) =
      (42, 43, 44, 45) ∧
    (legacy_read_data envLegacy13 0 modbus_retries LegacyHal.initial).1.dc_bus_volt
      = 10 ∧
    (legacy_read_data envLegacy13 0 modbus_retries
      LegacyHal.initial).1.torque_overload = 13 := by
  obtain ⟨hvolt, hlegacy⟩ := C9_voltage_group envAll7 engineVoltSentinel
  obtain ⟨h9, _, _, h12, _⟩ := hlegacy envLegacy13 LegacyHal.initial 0
    [1, 2, 3, 4, 5, 6, 7, 8, 9, 10, 11, 12, 13] (by decide)
  exact ⟨hvolt.trans (by decide), h9, h12⟩

/-- Counterexample to C9 as stated: a full polling cycle of the
split-layout engine in which every block read succeeds (all data words 7)
does not set the voltage-group slots to any raw register value — they keep
their prior sentinel values 42, 43, 44 and 45. -/
theorem C9_voltage_group_counterexample :
    (read_data envAll7 engineVoltSentinel).1.hal.dc_bus_volt = 42 ∧
    (read_data envAll7 engineVoltSentinel).1.hal.torque_load = 43 ∧
    (read_data envAll7 engineVoltSentinel).1.hal.res_braking = 44 ∧
    (read_data envAll7 engineVoltSentinel).1.hal.torque_overload = 45 := by
  decide

end LichuanA4
